import Mathlib

/-!
Verification of the AI Feature Scaffolder core pipeline.

This file is a shallow embedding of the input-processing and SPARC-generation
services of the repository (src/services/input-processor.ts and
src/services/sparc-generator.ts), together with theorems settling the
behavioural claims about them.

Strings are modelled by Lean `String` (a list of characters); JavaScript
string primitives (`includes`, `trim`, `toLowerCase`, `replace` with the
specific regexes appearing in the source, `Array.join`, `Array.map` with
index, spread-`Set` deduplication) are embedded as explicit recursive
functions on `List Char` / `List String`.  JavaScript `string.length`
(UTF-16 code units) is modelled by codepoint length; the two agree on all
inputs relevant here.  `Date().toISOString()` is modelled by a `now : String`
parameter.  `async`/`throw` is modelled by `Except String`.
-/

set_option maxRecDepth 8192

namespace AIFS

/-! ### JavaScript string primitives -/

/-- Character-wise lowercasing, the model of `String.prototype.toLowerCase`. -/
def jsToLower (s : String) : String := ⟨s.data.map Char.toLower⟩

/-- Does `pat` occur at the start of `l`? (helper for substring search). -/
def startsWithCh : List Char → List Char → Bool
  | [], _ => true
  | _ :: _, [] => false
  | p :: ps, t :: ts => p == t && startsWithCh ps ts

/-- Does `pat` occur anywhere in `l`? (helper for substring search). -/
def containsSubAux (pat : List Char) : List Char → Bool
  | [] => startsWithCh pat []
  | c :: cs => startsWithCh pat (c :: cs) || containsSubAux pat cs

/-- The model of `hay.includes(pat)` (JavaScript substring containment). -/
def strIncludes (hay pat : String) : Bool := containsSubAux pat.data hay.data

/-- Trim whitespace from both ends of a character list (model of
`String.prototype.trim`). -/
def trimChars (l : List Char) : List Char :=
  ((l.dropWhile Char.isWhitespace).reverse.dropWhile Char.isWhitespace).reverse

/-- The model of `s.trim()`. -/
def jsTrim (s : String) : String := ⟨trimChars s.data⟩

/-- Model of `[...new Set(l)]`: deduplicate keeping the first occurrence of
each element.  `List.eraseDups` has exactly these semantics. -/
def jsSetDedup (l : List String) : List String := List.eraseDups l

/-- Model of `Array.prototype.join(sep)`. -/
def joinSep (sep : String) : List String → String
  | [] => ""
  | [x] => x
  | x :: y :: ys => x ++ sep ++ joinSep sep (y :: ys)

/-! ### The two sanitisation regex passes

`sanitizeInput` applies `.replace(/<script[^>]*>.*?<\/script>/gi, '')`, then
`.replace(/<[^>]*>/g, '')`, then `.trim()`.  Both global replacements are
embedded as left-to-right scans, exactly following the regex engine:
a match of `<[^>]*>` at a position is the span from a `<` through the first
following `>`; a match of the script regex needs a case-insensitive
`<script`, then `[^>]*>` (everything to the first `>`), then the lazily
shortest run of non-newline characters (`.` does not match `\n`) up to a
case-insensitive `</script>`. -/

/-- Drop characters through the first `>` (the `[^>]*>` part of both
regexes); `none` when no `>` remains, i.e. no match is possible. -/
def dropAfterGt : List Char → Option (List Char)
  | [] => none
  | c :: cs => if c = '>' then some cs else dropAfterGt cs

theorem dropAfterGt_length : ∀ l r, dropAfterGt l = some r → r.length < l.length := by
  intro l
  induction l with
  | nil => intro r h; simp [dropAfterGt] at h
  | cons c cs ih =>
    intro r h
    simp only [dropAfterGt] at h
    by_cases hc : c = '>'
    · simp [hc] at h; simp [← h]
    · simp [hc] at h
      have := ih r h
      simp
      omega

/-- Case-insensitive character comparison (the `i` regex flag). -/
def ciCharEq (a b : Char) : Bool := a.toLower == b.toLower

/-- Case-insensitive "starts with" (pattern first). -/
def ciStartsWith : List Char → List Char → Bool
  | [], _ => true
  | _ :: _, [] => false
  | p :: ps, t :: ts => ciCharEq p t && ciStartsWith ps ts

/-- Scan for the lazily-first case-insensitive `</script>` reachable without
crossing a newline (the `.*?<\/script>` part, `.` not matching `\n`);
returns the remainder after the close tag. -/
def afterScriptClose : List Char → Option (List Char)
  | [] => none
  | c :: cs =>
    if ciStartsWith "</script>".data (c :: cs) then some (List.drop 9 (c :: cs))
    else if c = '\n' then none
    else afterScriptClose cs

theorem afterScriptClose_length : ∀ l r, afterScriptClose l = some r → r.length < l.length := by
  intro l
  induction l with
  | nil => intro r h; simp [afterScriptClose] at h
  | cons c cs ih =>
    intro r h
    simp only [afterScriptClose] at h
    by_cases h1 : ciStartsWith "</script>".data (c :: cs) = true
    · rw [if_pos h1] at h
      have h2 : r = List.drop 9 (c :: cs) := by
        exact (Option.some_inj.mp h).symm
      rw [h2, List.length_drop]
      simp
      omega
    · rw [if_neg h1] at h
      by_cases h2 : c = '\n'
      · simp [h2] at h
      · rw [if_neg h2] at h
        have := ih r h
        simp
        omega

/-- The model of `.replace(/<script[^>]*>.*?<\/script>/gi, '')`. -/
def removeScripts : List Char → List Char
  | [] => []
  | c :: cs =>
    if ciStartsWith "<script".data (c :: cs) then
      match h1 : dropAfterGt (List.drop 7 (c :: cs)) with
      | some r1 =>
        match h2 : afterScriptClose r1 with
        | some r2 => removeScripts r2
        | none => c :: removeScripts cs
      | none => c :: removeScripts cs
    else c :: removeScripts cs
termination_by l => l.length
decreasing_by
  · have hA := dropAfterGt_length (List.drop 7 (c :: cs)) r1 h1
    have hB := afterScriptClose_length r1 r2 h2
    have hC : (List.drop 7 (c :: cs)).length ≤ (c :: cs).length := by
      rw [List.length_drop]; omega
    simp at hA hB hC ⊢
    omega
  · simp
  · simp
  · simp

/-- The model of `.replace(/<[^>]*>/g, '')`. -/
def removeTags : List Char → List Char
  | [] => []
  | c :: cs =>
    if c = '<' then
      match h : dropAfterGt cs with
      | some rest => removeTags rest
      | none => c :: cs
    else c :: removeTags cs
termination_by l => l.length
decreasing_by
  · have := dropAfterGt_length cs rest h
    simp
    omega
  · simp

/-- `sanitizeInput` from src/services/input-processor.ts: remove script
elements, remove remaining tags, trim. -/
def sanitizeInput (input : String) : String :=
  ⟨trimChars (removeTags (removeScripts input.data))⟩

/-! ### InputProcessor: validation -/

/-- Is there a `>` anywhere in the list? -/
def hasGt : List Char → Bool
  | [] => false
  | c :: cs => c == '>' || hasGt cs

/-- Does the list contain a substring of tag shape `<[^>]*>`?  Equivalently
(since the span from a `<` to the first later `>` contains no other `>`),
is there a `<` with some `>` after it? -/
def hasTagShape : List Char → Bool
  | [] => false
  | c :: cs => (c == '<' && hasGt cs) || hasTagShape cs

/-- UTF-16 code units of a character (JavaScript strings are sequences of
UTF-16 code units; the validation regex is evaluated over them). -/
def utf16CodeUnits (c : Char) : List Nat :=
  if c.toNat ≤ 0xFFFF then [c.toNat]
  else [0xD800 + (c.toNat - 0x10000) / 0x400, 0xDC00 + (c.toNat - 0x10000) % 0x400]

/-- One code unit is accepted by the character class of the validation
regex (code points 0x00-0x7F and 0x80-0xFFFF). -/
def printableRangeOk (u : Nat) : Bool := u ≤ 0x7F || (0x80 ≤ u && u ≤ 0xFFFF)

/-- The model of the `^[...]*$` printable-range regex test of
`validateInput`: every UTF-16 code unit lies in the class. -/
def matchesEncodingRegex (s : String) : Bool :=
  ((s.data.map utf16CodeUnits).flatten).all printableRangeOk

structure ValidationResult where
  isValid : Bool
  errors : List String
  sanitizedInput : Option String := none
  deriving DecidableEq

def MIN_LENGTH : Nat := 10

def MAX_LENGTH : Nat := 10000

/-- `validateInput` from src/services/input-processor.ts. -/
def validateInput (input : String) : ValidationResult :=
  if (jsTrim input).data.isEmpty then
    { isValid := false, errors := ["Input is required"], sanitizedInput := none }
  else
    let errors :=
      (if input.length < MIN_LENGTH then ["Input must be at least 10 characters"] else []) ++
      (if input.length > MAX_LENGTH then ["Input exceeds maximum length of 10000 characters"] else []) ++
      (if strIncludes input "�" || !matchesEncodingRegex input
        then ["Invalid character encoding detected"] else [])
    { isValid := errors.isEmpty, errors := errors, sanitizedInput := some (sanitizeInput input) }

/-! ### InputProcessor: extraction, categorisation, structured spec -/

structure ExtractedEntities where
  features : List String
  technologies : List String
  requirements : List String
  constraints : List String
  deriving DecidableEq

def techKeywords : List String := ["node.js", "postgresql", "redis", "docker", "react"]

/-- The canonical-casing map applied to matched technology keywords. -/
def canonicalTech (tech : String) : String :=
  if tech = "node.js" then "Node.js"
  else if tech = "postgresql" then "PostgreSQL"
  else if tech = "redis" then "Redis"
  else if tech = "docker" then "Docker"
  else if tech = "react" then "React"
  else tech

def requirementKeywords : List String :=
  ["user registration", "product catalog", "payment processing", "shopping cart",
   "order management", "admin dashboard", "email notifications", "mobile responsive",
   "seo optimization", "analytics integration"]

/-- `extractEntities` from src/services/input-processor.ts. -/
def extractEntities (input : String) : ExtractedEntities :=
  let lowerInput := jsToLower input
  { features :=
      (if strIncludes lowerInput "blog application" then ["blog application"] else []) ++
      (if strIncludes lowerInput "user authentication" then ["user authentication"] else []) ++
      (if strIncludes lowerInput "todo app" then ["todo app"] else []),
    technologies := (techKeywords.filter (fun t => strIncludes lowerInput t)).map canonicalTech,
    requirements := requirementKeywords.filter (fun r => strIncludes lowerInput r),
    constraints :=
      (if strIncludes lowerInput "< 10ms latency" then ["< 10ms latency"] else []) ++
      (if strIncludes lowerInput "multi-factor authentication"
        then ["Multi-factor authentication"] else []) }

structure ProjectCategory where
  type : String
  complexity : String
  deriving DecidableEq

/-- `categorizeProject` from src/services/input-processor.ts. -/
def categorizeProject (input : String) : ProjectCategory :=
  let lowerInput := jsToLower input
  if strIncludes lowerInput "e-commerce" || strIncludes lowerInput "shopping" ||
      strIncludes lowerInput "payment" then
    { type := "e-commerce", complexity := "high" }
  else if strIncludes lowerInput "microservices" || strIncludes lowerInput "financial trading" then
    { type := "microservices", complexity := "enterprise" }
  else if strIncludes lowerInput "todo" && decide (lowerInput.length < 50) then
    { type := "utility", complexity := "low" }
  else
    { type := "web-application", complexity := "medium" }

/-- Rule 1 of the spec's categorisation table: any of
"e-commerce" / "shopping" / "payment" present. -/
def rule1Matches (input : String) : Bool :=
  strIncludes (jsToLower input) "e-commerce" || strIncludes (jsToLower input) "shopping" ||
    strIncludes (jsToLower input) "payment"

/-- Rule 2 of the spec's categorisation table: any of
"microservices" / "financial trading" present. -/
def rule2Matches (input : String) : Bool :=
  strIncludes (jsToLower input) "microservices" ||
    strIncludes (jsToLower input) "financial trading"

/-- Rule 3 of the spec's categorisation table: contains "todo" and total
length below 50. -/
def rule3Matches (input : String) : Bool :=
  strIncludes (jsToLower input) "todo" && decide ((jsToLower input).length < 50)

/-- The spec's description of the categoriser (ordered rules, first match
wins), written from the spec's words for comparison with the source
embedding `categorizeProject`. -/
def specCategorizeRules (input : String) : ProjectCategory :=
  if rule1Matches input then { type := "e-commerce", complexity := "high" }
  else if rule2Matches input then { type := "microservices", complexity := "enterprise" }
  else if rule3Matches input then { type := "utility", complexity := "low" }
  else { type := "web-application", complexity := "medium" }

structure EstimatedTimeline where
  phases : List String
  totalWeeks : Nat
  deriving DecidableEq

structure TechnologySuggestions where
  suggested : List String
  alternatives : List String
  deriving DecidableEq

structure RequestMetadata where
  complexity : String
  framework : String
  includeTests : Bool
  includeDocs : Bool
  aiProvider : String
  deriving DecidableEq

structure StructuredSpec where
  projectName : String
  description : String
  features : List String
  technologies : TechnologySuggestions
  requirements : List String
  constraints : List String
  acceptanceCriteria : List String
  estimatedTimeline : EstimatedTimeline
  requestMetadata : Option RequestMetadata := none
  deriving DecidableEq

/-- `extractProjectName` from src/services/input-processor.ts. -/
def extractProjectName (input : String) : String :=
  let lowerInput := jsToLower input
  if strIncludes lowerInput "blog" then "Blog Application"
  else if strIncludes lowerInput "e-commerce" then "E-commerce Platform"
  else if strIncludes lowerInput "todo" then "Todo Application"
  else if strIncludes lowerInput "trading" then "Trading Platform"
  else "Web Application"

/-- `generateDescription` from src/services/input-processor.ts. -/
def generateDescription (entities : ExtractedEntities) : String :=
  "A comprehensive application featuring " ++ joinSep ", " entities.features

/-- `suggestTechnologies` from src/services/input-processor.ts. -/
def suggestTechnologies (category : ProjectCategory) (entities : ExtractedEntities) :
    List String :=
  jsSetDedup
    (["React", "Node.js"] ++
      (if category.complexity == "high" || category.complexity == "enterprise"
        then ["PostgreSQL", "Redis"] else []) ++
      entities.technologies)

/-- `generateAcceptanceCriteria` from src/services/input-processor.ts. -/
def generateAcceptanceCriteria (entities : ExtractedEntities) : List String :=
  entities.features.map (fun feature => "User should be able to use " ++ feature ++ " successfully")

/-- `estimateTimeline` from src/services/input-processor.ts. -/
def estimateTimeline (category : ProjectCategory) : EstimatedTimeline :=
  { phases := ["Planning", "Development", "Testing", "Deployment"],
    totalWeeks :=
      if category.complexity == "low" then 2
      else if category.complexity == "medium" then 8
      else if category.complexity == "high" then 16
      else 24 }

/-- `generateStructuredSpec` from src/services/input-processor.ts (the body
is total, so the try/catch wrapper never fires and the function is embedded
as a pure function). -/
def generateStructuredSpec (input : String) : StructuredSpec :=
  let entities := extractEntities input
  let category := categorizeProject input
  { projectName := extractProjectName input,
    description := generateDescription entities,
    features := entities.features,
    technologies := { suggested := suggestTechnologies category entities, alternatives := [] },
    requirements := entities.requirements,
    constraints := entities.constraints,
    acceptanceCriteria := generateAcceptanceCriteria entities,
    estimatedTimeline := estimateTimeline category,
    requestMetadata := none }

/-! Sanity checks of the embedding against the behaviours recorded in the
repository's tests and spec examples. -/

example : categorizeProject "Build an e-commerce store" =
    { type := "e-commerce", complexity := "high" } := by decide

example : categorizeProject "Todo app" = { type := "utility", complexity := "low" } := by decide

example : (extractEntities "Use Node.js, PostgreSQL, Redis, Docker").technologies =
    ["Node.js", "PostgreSQL", "Redis", "Docker"] := by decide

example : (generateStructuredSpec
    "Create a simple blog application with user authentication").projectName =
    "Blog Application" := by decide

example : (generateStructuredSpec
    "Create a simple blog application with user authentication").features =
    ["blog application", "user authentication"] := by decide

example : sanitizeInput "<script>alert(1)</script>Create a blog" = "Create a blog" := by
  have h : removeScripts "<script>alert(1)</script>Create a blog".data =
      "Create a blog".data := by
    simp [removeScripts, dropAfterGt, afterScriptClose, ciStartsWith, ciCharEq]
  have h2 : removeTags "Create a blog".data = "Create a blog".data := by
    simp [removeTags]
  show (⟨trimChars (removeTags (removeScripts "<script>alert(1)</script>Create a blog".data))⟩ :
    String) = "Create a blog"
  rw [h, h2]
  rfl

/-! ### SparcGenerator: data model -/

structure SparcMetadata where
  generatedAt : String
  projectName : String
  complexity : String
  phase : String
  technologies : List String
  deriving DecidableEq

structure SparcFile where
  phase : String
  content : String
  metadata : SparcMetadata
  deriving DecidableEq

structure GeneratedFile where
  name : String
  content : String
  type : String
  deriving DecidableEq

/-- `Omit<SparcOutput, 'generationTime' | 'timestamp'>`, the value returned
by `SparcGenerator.generate`. -/
structure SparcOutputCore where
  files : List GeneratedFile
  specification : String
  architecture : String
  deriving DecidableEq

/-- The fixed phase enumeration `validPhases` of SparcGenerator. -/
def validPhases : List String :=
  ["specification", "pseudocode", "architecture", "refinement", "completion"]

/-- `determineComplexity` from src/services/sparc-generator.ts. -/
def determineComplexity (spec : StructuredSpec) : String :=
  let featureCount := spec.features.length
  let hasComplexFeatures :=
    decide (spec.requirements.length > 3) || decide (spec.constraints.length > 1)
  if decide (featureCount ≤ 2) && !hasComplexFeatures then "low"
  else if decide (featureCount ≤ 5) && !hasComplexFeatures then "medium"
  else "high"

/-- The spec's complexity re-derivation rule (§4.7), written from the
spec's words for comparison with the source embedding
`determineComplexity`. -/
def specComplexityRule (spec : StructuredSpec) : String :=
  if spec.features.length ≤ 2 ∧
      ¬(spec.requirements.length > 3 ∨ spec.constraints.length > 1) then "low"
  else if spec.features.length ≤ 5 ∧
      ¬(spec.requirements.length > 3 ∨ spec.constraints.length > 1) then "medium"
  else "high"

/-- `getPhaseTitle` from src/services/sparc-generator.ts (the `titles`
record lookup). -/
def getPhaseTitle (phase : String) : String :=
  if phase = "specification" then "Specification"
  else if phase = "pseudocode" then "Pseudocode"
  else if phase = "architecture" then "Architecture"
  else if phase = "refinement" then "Refinement"
  else if phase = "completion" then "Completion"
  else ""

/-- `getTechnologyDescription` from src/services/sparc-generator.ts. -/
def getTechnologyDescription (tech : String) : String :=
  if tech = "React" then "Frontend user interface framework"
  else if tech = "Node.js" then "Backend JavaScript runtime"
  else if tech = "PostgreSQL" then "Relational database management system"
  else if tech = "Redis" then "In-memory data structure store for caching"
  else if tech = "Docker" then "Containerization platform"
  else if tech = "Express" then "Web application framework for Node.js"
  else "Technology component"

/-- Model of `.replace(/\s+/g, rep)`: each maximal whitespace run is
replaced by `rep`. -/
def replaceWsRuns (rep : List Char) : List Char → List Char
  | [] => []
  | c :: cs =>
    if c.isWhitespace then rep ++ replaceWsRuns rep (cs.dropWhile Char.isWhitespace)
    else c :: replaceWsRuns rep cs
termination_by l => l.length
decreasing_by
  · have := List.Sublist.length_le (List.dropWhile_sublist (l := cs) Char.isWhitespace)
    simp
    omega
  · simp

/-- Model of `s.replace(/\s+/g, '')`. -/
def stripWs (s : String) : String := ⟨replaceWsRuns [] s.data⟩

/-- Model of `s.replace(/\s+/g, '-')`. -/
def hyphenateWs (s : String) : String := ⟨replaceWsRuns ['-'] s.data⟩

/-- `List.indexOf` on the phase list (model of `Array.prototype.indexOf`,
only ever evaluated on members). -/
def idxOf : List String → String → Nat
  | [], _ => 0
  | a :: as, x => if a = x then 0 else idxOf as x + 1

/-! ### SparcGenerator: the five phase templates.

Each is the corresponding template literal of
src/services/sparc-generator.ts, split (at an interpolation boundary) into
the `# Phase N: Title - projectName` head and a `...Tail` helper holding
everything after the project name. -/

/-- Everything of the specification template after the heading. -/
def specificationTail (spec : StructuredSpec) : String :=
  "\n\n## Project Overview\n" ++ spec.description ++
  "\n\n## Technology Stack\n" ++
  joinSep "\n" (spec.technologies.suggested.map (fun tech => "- " ++ tech)) ++
  "\n\n## Core Functional Requirements\n" ++
  joinSep "\n\n" (spec.features.enum.map (fun p =>
    "### FR" ++ toString (p.1 + 1) ++ ": " ++ p.2 ++ "\n- Implementation of " ++ p.2 ++
    "\n- User interface components\n- Backend service integration")) ++
  "\n\n## Non-Functional Requirements\n" ++
  joinSep "\n" (spec.requirements.map (fun req => "- " ++ req)) ++
  "\n\n## Technical Constraints\n" ++
  joinSep "\n" (spec.constraints.map (fun constraint => "- " ++ constraint)) ++
  "\n\n## Acceptance Criteria\n" ++
  joinSep "\n" (spec.acceptanceCriteria.enum.map (fun p => toString (p.1 + 1) ++ ". " ++ p.2)) ++
  "\n\n## Success Metrics\n- User satisfaction rating > 4.0/5.0\n- System uptime > 99.9%\n- Response time < 200ms for critical operations\n- Security compliance with industry standards\n"

/-- `generateSpecificationContent` from src/services/sparc-generator.ts. -/
def generateSpecificationContent (phaseNumber : Nat) (spec : StructuredSpec) : String :=
  "# Phase " ++ toString phaseNumber ++ ": Specification - " ++ spec.projectName ++
    specificationTail spec

/-- Everything of the pseudocode template after the heading. -/
def pseudocodeTail (spec : StructuredSpec) : String :=
  "\n\n## Core Algorithm Design\n\n" ++
  joinSep "\n" (spec.features.map (fun feature =>
    "### " ++ feature ++ " Flow\n```\nFUNCTION handle" ++ stripWs feature ++
    "():\n  BEGIN\n    VALIDATE user input\n    AUTHENTICATE user session\n    PROCESS business logic\n    UPDATE data store\n    RETURN success response\n  END\n```\n")) ++
  "\n\n## Data Structures\n```\nSTRUCTURE User:\n  id: INTEGER\n  username: STRING\n  email: STRING\n  createdAt: TIMESTAMP\n  \nSTRUCTURE " ++
  stripWs spec.projectName ++
  "Data:\n  id: INTEGER\n  userId: INTEGER (FK)\n  content: JSON\n  updatedAt: TIMESTAMP\n```\n\n## Error Handling\n```\nFUNCTION handleError(error):\n  LOG error details\n  IF error.type == \"VALIDATION\":\n    RETURN user-friendly message\n  ELSE IF error.type == \"AUTH\":\n    REDIRECT to login\n  ELSE:\n    RETURN generic error message\n```\n"

/-- `generatePseudocodeContent` from src/services/sparc-generator.ts. -/
def generatePseudocodeContent (phaseNumber : Nat) (spec : StructuredSpec) : String :=
  "# Phase " ++ toString phaseNumber ++ ": Pseudocode - " ++ spec.projectName ++
    pseudocodeTail spec

/-- The `## Component Structure` list of the architecture template. -/
def componentStructure (spec : StructuredSpec) : String :=
  joinSep "\n" (spec.technologies.suggested.map (fun tech =>
    "- " ++ tech ++ ": " ++ getTechnologyDescription tech))

/-- Everything of the architecture template after the heading, with the
conditional diagram branches of `generateArchitectureContent`. -/
def architectureTail (spec : StructuredSpec) : String :=
  let hasDatabase := spec.technologies.suggested.any (fun tech =>
    decide (tech ∈ ["PostgreSQL", "MySQL", "MongoDB"]))
  let hasCache := decide ("Redis" ∈ spec.technologies.suggested)
  let complexity := determineComplexity spec
  let isComplex := complexity == "high" || decide (spec.requirements.length > 3)
  "\n\n## System Architecture\n```\nFrontend (" ++
  (spec.technologies.suggested.find? (fun t => decide (t ∈ ["React", "Vue", "Angular"]))).getD "React" ++
  ")\n    ↓\nAPI Gateway\n    ↓" ++
  (if isComplex then
    "\nMicroservices Architecture\n    ├── Auth Service\n    ├── Core Service\n    └── Notification Service"
   else
    "\nBackend Service (" ++
    (spec.technologies.suggested.find? (fun t => decide (t ∈ ["Node.js", "Express"]))).getD "Node.js" ++
    ")") ++
  (if hasCache then "\n    ↓\nCache Layer (Redis)" else "") ++
  (if hasDatabase then
    "\n    ↓\nDatabase (" ++
    (spec.technologies.suggested.find? (fun t =>
      decide (t ∈ ["PostgreSQL", "MySQL", "MongoDB"]))).getD "PostgreSQL" ++ ")"
   else "") ++
  "\n```\n\n## Component Structure\n" ++ componentStructure spec ++
  "\n\n## Security Architecture\n- Authentication: JWT tokens with refresh mechanism\n- Authorization: Role-based access control (RBAC)\n- Data encryption: AES-256 for sensitive data\n- API security: Rate limiting, input validation, CORS\n\n## Scalability Considerations\n- Horizontal scaling capability\n- Database connection pooling\n- Caching strategy for frequently accessed data\n- Load balancing across service instances\n"

/-- `generateArchitectureContent` from src/services/sparc-generator.ts. -/
def generateArchitectureContent (phaseNumber : Nat) (spec : StructuredSpec) : String :=
  "# Phase " ++ toString phaseNumber ++ ": Architecture - " ++ spec.projectName ++
    architectureTail spec

/-- Everything of the refinement template after the heading. -/
def refinementTail (spec : StructuredSpec) : String :=
  "\n\n## Test-Driven Development Plan\n1. Write unit tests for core business logic\n2. Create integration tests for API endpoints\n3. Develop end-to-end tests for user workflows\n4. Implement components to pass tests\n5. Refactor for performance and maintainability\n\n## Testing Strategy\n### Unit Tests (Target: 90% coverage)\n" ++
  joinSep "\n" (spec.features.map (fun feature =>
    "- " ++ feature ++ " service tests\n- " ++ feature ++ " validation tests\n- " ++ feature ++
    " error handling tests")) ++
  "\n\n### Integration Tests\n" ++
  joinSep "\n" (spec.features.map (fun feature =>
    "- " ++ feature ++ " API endpoint tests\n- " ++ feature ++ " database interaction tests")) ++
  "\n\n### End-to-End Tests\n" ++
  joinSep "\n" (spec.features.map (fun feature => "- " ++ feature ++ " user workflow tests")) ++
  "\n\n## Performance Optimization\n- Database query optimization\n- Implement caching for frequently accessed data\n- API response compression\n- Frontend bundle optimization\n- Image and asset optimization\n\n## Code Quality Standards\n- ESLint configuration for consistent code style\n- Prettier for automatic code formatting\n- TypeScript for type safety\n- Code review process requirements\n- Pre-commit hooks for quality checks\n\n## Monitoring and Logging\n- Application performance monitoring (APM)\n- Error tracking and alerting\n- User activity analytics\n- System health metrics\n- Audit trail for critical operations\n"

/-- `generateRefinementContent` from src/services/sparc-generator.ts. -/
def generateRefinementContent (phaseNumber : Nat) (spec : StructuredSpec) : String :=
  "# Phase " ++ toString phaseNumber ++ ": Refinement - " ++ spec.projectName ++
    refinementTail spec

/-- Everything of the completion template after the heading. -/
def completionTail (spec : StructuredSpec) : String :=
  "\n\n## Deployment Strategy\n### Environment Setup\n- Development: Local development with hot reload\n- Staging: Production-like environment for testing\n- Production: High-availability deployment\n\n### CI/CD Pipeline\n1. Code commit triggers automated tests\n2. Build and package application\n3. Deploy to staging environment\n4. Run integration and E2E tests\n5. Deploy to production with blue-green strategy\n\n### Infrastructure\n- Containerization with Docker\n- Orchestration with Kubernetes (if complex) or Docker Compose\n- Cloud deployment (AWS/Azure/GCP)\n- Database backup and recovery procedures\n\n## Documentation\n### Technical Documentation\n- API documentation with OpenAPI/Swagger\n- Database schema documentation\n- Architecture decision records (ADRs)\n- Deployment and operations guide\n\n### User Documentation\n- User guide for " ++
  jsToLower spec.projectName ++
  "\n- FAQ and troubleshooting guide\n- Feature tutorials and walkthroughs\n- Getting started guide\n\n## Maintenance and Support\n### Monitoring\n- Application performance metrics\n- Error rate monitoring\n- User engagement analytics\n- System resource utilization\n\n### Updates and Maintenance\n- Regular security updates\n- Feature enhancement roadmap\n- Bug fix prioritization process\n- User feedback integration\n\n## Success Criteria Validation\n" ++
  joinSep "\n" (spec.acceptanceCriteria.enum.map (fun p =>
    toString (p.1 + 1) ++ ". ✅ " ++ p.2)) ++
  "\n\n## Project Handover\n- Code repository access and permissions\n- Documentation and knowledge transfer\n- Support contact information\n- Maintenance schedule and procedures\n"

/-- `generateCompletionContent` from src/services/sparc-generator.ts. -/
def generateCompletionContent (phaseNumber : Nat) (spec : StructuredSpec) : String :=
  "# Phase " ++ toString phaseNumber ++ ": Completion - " ++ spec.projectName ++
    completionTail spec

/-! ### SparcGenerator: phase dispatch and aggregation -/

/-- `generatePhaseContent` from src/services/sparc-generator.ts: compute the
1-based phase number, dispatch on the phase name; the unreachable default
branch throws `Unknown phase`. -/
def generatePhaseContent (phase : String) (spec : StructuredSpec) : Except String String :=
  let phaseNumber := idxOf validPhases phase + 1
  if phase = "specification" then .ok (generateSpecificationContent phaseNumber spec)
  else if phase = "pseudocode" then .ok (generatePseudocodeContent phaseNumber spec)
  else if phase = "architecture" then .ok (generateArchitectureContent phaseNumber spec)
  else if phase = "refinement" then .ok (generateRefinementContent phaseNumber spec)
  else if phase = "completion" then .ok (generateCompletionContent phaseNumber spec)
  else .error ("Unknown phase: " ++ phase)

/-- `generatePhase`, parameterised by the content-generation function (in
the source this is the private `generatePhaseContent`; the parameter lets
the failure propagation of `generateAllPhases` be stated for a content
generator that throws). -/
def generatePhaseWith (gen : String → StructuredSpec → Except String String)
    (phase : String) (spec : StructuredSpec) (now : String) : Except String SparcFile :=
  if phase ∈ validPhases then
    (gen phase spec).map fun content =>
      { phase := phase, content := content,
        metadata :=
          { generatedAt := now, projectName := spec.projectName,
            complexity := determineComplexity spec, phase := phase,
            technologies := spec.technologies.suggested } }
  else .error "Invalid phase name"

/-- `generatePhase` from src/services/sparc-generator.ts
(`Date().toISOString()` is the `now` parameter). -/
def generatePhase (phase : String) (spec : StructuredSpec) (now : String) :
    Except String SparcFile :=
  generatePhaseWith generatePhaseContent phase spec now

/-- The sequential loop of `generateAllPhases` over a list of phases,
stopping at the first failure. -/
def generatePhasesList (gen : String → StructuredSpec → Except String String)
    (spec : StructuredSpec) (now : String) : List String → Except String (List SparcFile)
  | [] => .ok []
  | p :: ps =>
    match generatePhaseWith gen p spec now with
    | .error e => .error e
    | .ok f =>
      match generatePhasesList gen spec now ps with
      | .error e => .error e
      | .ok fs => .ok (f :: fs)

/-- `generateAllPhases`, parameterised by the content generator: loop over
`validPhases`; any failure is caught and re-thrown as the aggregate
error. -/
def generateAllPhasesWith (gen : String → StructuredSpec → Except String String)
    (spec : StructuredSpec) (now : String) : Except String (List SparcFile) :=
  match generatePhasesList gen spec now validPhases with
  | .ok fs => .ok fs
  | .error _ => .error "Failed to generate SPARC documentation"

/-- `generateAllPhases` from src/services/sparc-generator.ts. -/
def generateAllPhases (spec : StructuredSpec) (now : String) :
    Except String (List SparcFile) :=
  generateAllPhasesWith generatePhaseContent spec now

/-! ### SparcGenerator: scaffold emitter -/

/-- The escaping `JSON.stringify` applies inside string values. -/
def jsonEscapeChar (c : Char) : List Char :=
  if c = '"' then ['\\', '"']
  else if c = '\\' then ['\\', '\\']
  else if c = '\n' then ['\\', 'n']
  else if c = '\t' then ['\\', 't']
  else if c = '\r' then ['\\', 'r']
  else [c]

/-- JSON string-value escaping. -/
def jsonEscape (s : String) : String := ⟨(s.data.map jsonEscapeChar).flatten⟩

/-- `generatePackageJson`: the `JSON.stringify(obj, null, 2)` output for the
react package manifest. -/
def generatePackageJson (spec : StructuredSpec) : String :=
  "\x7b\n  \"name\": \"" ++ jsonEscape (hyphenateWs (jsToLower spec.projectName)) ++
  "\",\n  \"version\": \"1.0.0\",\n  \"description\": \"" ++ jsonEscape spec.description ++
  "\",\n  \"main\": \"src/index.tsx\",\n  \"scripts\": \x7b\n    \"start\": \"react-scripts start\",\n    \"build\": \"react-scripts build\",\n    \"test\": \"react-scripts test\",\n    \"eject\": \"react-scripts eject\"\n  \x7d,\n  \"dependencies\": \x7b\n    \"react\": \"^18.2.0\",\n    \"react-dom\": \"^18.2.0\",\n    \"react-scripts\": \"5.0.1\",\n    \"typescript\": \"^4.9.5\"\n  \x7d,\n  \"devDependencies\": \x7b\n    \"@types/react\": \"^18.2.0\",\n    \"@types/react-dom\": \"^18.2.0\"\n  \x7d\n\x7d"

/-- `generateVuePackageJson`: the stringified vue package manifest. -/
def generateVuePackageJson (spec : StructuredSpec) : String :=
  "\x7b\n  \"name\": \"" ++ jsonEscape (hyphenateWs (jsToLower spec.projectName)) ++
  "\",\n  \"version\": \"1.0.0\",\n  \"description\": \"" ++ jsonEscape spec.description ++
  "\",\n  \"scripts\": \x7b\n    \"serve\": \"vue-cli-service serve\",\n    \"build\": \"vue-cli-service build\",\n    \"test\": \"vue-cli-service test:unit\"\n  \x7d,\n  \"dependencies\": \x7b\n    \"vue\": \"^3.3.0\"\n  \x7d,\n  \"devDependencies\": \x7b\n    \"@vue/cli-service\": \"~5.0.0\",\n    \"typescript\": \"^4.9.5\"\n  \x7d\n\x7d"

/-- `generateReactApp` from src/services/sparc-generator.ts. -/
def generateReactApp (spec : StructuredSpec) : String :=
  "import React from 'react';\nimport './App.css';\n\nfunction App() \x7b\n  return (\n    <div className=\"App\">\n      <header className=\"App-header\">\n        <h1>" ++
  spec.projectName ++ "</h1>\n        <p>" ++ spec.description ++
  "</p>\n      </header>\n      <main>\n        \x7b/* Features to implement: */\x7d\n        " ++
  joinSep "" (spec.features.map (fun feature =>
    "\n        <section>\n          <h2>" ++ feature ++
    "</h2>\n          <p>Implementation for " ++ feature ++
    " goes here</p>\n        </section>")) ++
  "\n      </main>\n    </div>\n  );\n\x7d\n\nexport default App;"

/-- `generateVueApp` from src/services/sparc-generator.ts. -/
def generateVueApp (spec : StructuredSpec) : String :=
  "<template>\n  <div id=\"app\">\n    <header>\n      <h1>" ++ spec.projectName ++
  "</h1>\n      <p>" ++ spec.description ++
  "</p>\n    </header>\n    <main>\n      <!-- Features to implement: -->\n      " ++
  joinSep "" (spec.features.map (fun feature =>
    "\n      <section>\n        <h2>" ++ feature ++
    "</h2>\n        <p>Implementation for " ++ feature ++
    " goes here</p>\n      </section>")) ++
  "\n    </main>\n  </div>\n</template>\n\n<script lang=\"ts\">\nimport \x7b defineComponent \x7d from 'vue';\n\nexport default defineComponent(\x7b\n  name: 'App',\n  data() \x7b\n    return \x7b\n      projectName: '" ++
  spec.projectName ++ "',\n      description: '" ++ spec.description ++
  "'\n    \x7d;\n  \x7d\n\x7d);\n</script>"

/-- `generateVanillaIndex` from src/services/sparc-generator.ts. -/
def generateVanillaIndex (spec : StructuredSpec) : String :=
  "<!DOCTYPE html>\n<html lang=\"en\">\n<head>\n    <meta charset=\"UTF-8\">\n    <meta name=\"viewport\" content=\"width=device-width, initial-scale=1.0\">\n    <title>" ++
  spec.projectName ++ "</title>\n</head>\n<body>\n    <header>\n        <h1>" ++
  spec.projectName ++ "</h1>\n        <p>" ++ spec.description ++
  "</p>\n    </header>\n    <main>\n        " ++
  joinSep "" (spec.features.map (fun feature =>
    "\n        <section>\n            <h2>" ++ feature ++
    "</h2>\n            <p>Implementation for " ++ feature ++
    " goes here</p>\n        </section>")) ++
  "\n    </main>\n</body>\n</html>"

/-- `generateComponentIndex` from src/services/sparc-generator.ts. -/
def generateComponentIndex (spec : StructuredSpec) : String :=
  "// Component exports for " ++ spec.projectName ++ "\n" ++
  joinSep "\n" (spec.features.map (fun feature =>
    "export \x7b default as " ++ stripWs feature ++ " \x7d from './" ++ stripWs feature ++ "';")) ++
  "\n"

/-- `generateTestSetup` from src/services/sparc-generator.ts. -/
def generateTestSetup (framework : String) : String :=
  "// Test setup for " ++ framework ++
  "\nimport '@testing-library/jest-dom';\n\n// Setup test environment\nbeforeEach(() => \x7b\n  // Reset test state\n\x7d);\n\nafterEach(() => \x7b\n  // Cleanup after each test\n\x7d);\n"

/-- `generateFeatureTest` from src/services/sparc-generator.ts. -/
def generateFeatureTest (feature : String) : String :=
  "import \x7b render, screen \x7d from '@testing-library/react';\nimport \x7b " ++
  stripWs feature ++ " \x7d from '../src/components';\n\ndescribe('" ++ feature ++
  "', () => \x7b\n  it('should render " ++ feature ++ " component', () => \x7b\n    render(<" ++
  stripWs feature ++ " />);\n    expect(screen.getByText('" ++ feature ++
  "')).toBeInTheDocument();\n  \x7d);\n\n  it('should handle " ++ feature ++
  " functionality', () => \x7b\n    // Test implementation here\n    expect(true).toBe(true);\n  \x7d);\n\x7d);\n"

/-- `generateReadme` from src/services/sparc-generator.ts. -/
def generateReadme (spec : StructuredSpec) : String :=
  "# " ++ spec.projectName ++ "\n\n" ++ spec.description ++ "\n\n## Features\n\n" ++
  joinSep "\n" (spec.features.map (fun feature => "- " ++ feature)) ++
  "\n\n## Technologies\n\n" ++
  joinSep "\n" (spec.technologies.suggested.map (fun tech => "- " ++ tech)) ++
  "\n\n## Getting Started\n\n1. Install dependencies:\n   ```bash\n   npm install\n   ```\n\n2. Start development server:\n   ```bash\n   npm start\n   ```\n\n3. Run tests:\n   ```bash\n   npm test\n   ```\n\n## Requirements\n\n" ++
  joinSep "\n" (spec.requirements.map (fun req => "- " ++ req)) ++
  "\n\n## Constraints\n\n" ++
  joinSep "\n" (spec.constraints.map (fun constraint => "- " ++ constraint)) ++
  "\n\n## License\n\nMIT\n"

/-- `generateContributing` from src/services/sparc-generator.ts. -/
def generateContributing : String :=
  "# Contributing Guide\n\nThank you for your interest in contributing!\n\n## Development Process\n\n1. Fork the repository\n2. Create a feature branch\n3. Make your changes\n4. Write tests\n5. Submit a pull request\n\n## Code Standards\n\n- Follow existing code style\n- Write comprehensive tests\n- Update documentation\n- Follow SPARC methodology\n\n## Testing\n\nRun the test suite before submitting:\n\n```bash\nnpm test\n```\n\n## Questions?\n\nOpen an issue for any questions or concerns.\n"

/-- `generateFrameworkFiles` from src/services/sparc-generator.ts. -/
def generateFrameworkFiles (framework : String) (spec : StructuredSpec) : List GeneratedFile :=
  if framework = "react" then
    [{ name := "package.json", content := generatePackageJson spec, type := "configuration" },
     { name := "src/App.tsx", content := generateReactApp spec, type := "component" },
     { name := "src/components/index.ts", content := generateComponentIndex spec, type := "index" }]
  else if framework = "vue" then
    [{ name := "package.json", content := generateVuePackageJson spec, type := "configuration" },
     { name := "src/App.vue", content := generateVueApp spec, type := "component" }]
  else
    [{ name := "index.html", content := generateVanillaIndex spec, type := "html" }]

/-- `generateTestFiles` from src/services/sparc-generator.ts: one setup file
plus one test file per feature (the feature-test template ignores the
framework argument). -/
def generateTestFiles (framework : String) (spec : StructuredSpec) : List GeneratedFile :=
  { name := "tests/setup.ts", content := generateTestSetup framework, type := "test" } ::
  spec.features.map (fun feature =>
    { name := "tests/" ++ hyphenateWs (jsToLower feature) ++ ".test.ts",
      content := generateFeatureTest feature, type := "test" })

/-- `generateDocumentationFiles` from src/services/sparc-generator.ts. -/
def generateDocumentationFiles (spec : StructuredSpec) : List GeneratedFile :=
  [{ name := "README.md", content := generateReadme spec, type := "documentation" },
   { name := "CONTRIBUTING.md", content := generateContributing, type := "documentation" }]

/-- `generate` from src/services/sparc-generator.ts.  The three
`spec.requestMetadata?.x || default` expressions are embedded exactly: an
optional-chain miss yields the JavaScript-falsy branch, and `|| true`
replaces a `false` flag by `true`. -/
def generate (spec : StructuredSpec) (now : String) : Except String SparcOutputCore :=
  match generateAllPhases spec now with
  | .error e => .error ("SPARC generation failed: " ++ e)
  | .ok sparcFiles =>
    let framework :=
      match spec.requestMetadata with
      | none => "react"
      | some m => if m.framework = "" then "react" else m.framework
    let includeTests :=
      (match spec.requestMetadata with | none => false | some m => m.includeTests) || true
    let includeDocs :=
      (match spec.requestMetadata with | none => false | some m => m.includeDocs) || true
    let specification :=
      sparcFiles.foldl (fun acc f => if f.phase = "specification" then f.content else acc) ""
    let architecture :=
      sparcFiles.foldl (fun acc f => if f.phase = "architecture" then f.content else acc) ""
    let files :=
      sparcFiles.map (fun f =>
        { name := f.phase ++ ".md", content := f.content, type := "documentation" }) ++
      generateFrameworkFiles framework spec ++
      (if includeTests then generateTestFiles framework spec else []) ++
      (if includeDocs then generateDocumentationFiles spec else [])
    .ok { files := files, specification := specification, architecture := architecture }

/-! ### Helper lemmas -/

theorem jsTrim_data (s : String) : (jsTrim s).data = trimChars s.data := rfl

theorem str_length_data (s : String) : s.length = s.data.length := rfl

theorem str_ne_empty_left (a b : String) (ha : a.data ≠ []) : a ++ b ≠ "" := by
  intro h
  have h2 := congrArg String.data h
  rw [String.data_append] at h2
  exact ha (List.append_eq_nil.mp h2).1

theorem dropWhile_all_nil (p : Char → Bool) :
    ∀ l : List Char, (∀ c ∈ l, p c = true) → l.dropWhile p = [] := by
  intro l
  induction l with
  | nil => intro _; rfl
  | cons c cs ih =>
    intro h
    rw [List.dropWhile_cons, if_pos (h c (List.mem_cons_self c cs))]
    exact ih fun x hx => h x (List.mem_cons_of_mem c hx)

theorem trim_replicate_ws (n : Nat) (c : Char) (h : c.isWhitespace = true) :
    trimChars (List.replicate n c) = [] := by
  have h1 : (List.replicate n c).dropWhile Char.isWhitespace = [] :=
    dropWhile_all_nil _ _ (fun x hx => by rw [List.eq_of_mem_replicate hx]; exact h)
  unfold trimChars
  rw [h1]
  rfl

theorem trim_replicate_nonws (n : Nat) (c : Char) (h : c.isWhitespace = false) :
    trimChars (List.replicate (n + 1) c) = List.replicate (n + 1) c := by
  unfold trimChars
  rw [List.replicate_succ, List.dropWhile_cons, if_neg (by simp [h]), ← List.replicate_succ,
    List.reverse_replicate, List.replicate_succ, List.dropWhile_cons, if_neg (by simp [h]),
    ← List.replicate_succ, List.reverse_replicate]

/-- `determineComplexity` agrees with the spec's complexity rule (§4.7). -/
theorem determineComplexity_eq_rule (spec : StructuredSpec) :
    determineComplexity spec = specComplexityRule spec := by
  unfold determineComplexity specComplexityRule
  by_cases h1 : spec.features.length ≤ 2 <;>
    by_cases h2 : spec.requirements.length > 3 <;>
    by_cases h3 : spec.constraints.length > 1 <;>
    by_cases h4 : spec.features.length ≤ 5 <;>
    simp [h1, h2, h3, h4]

/-! ### Claims C3, C4, C5 -/

/-- C3: `categorizeProject` evaluates the four rules in the fixed order and
returns the result of the first matching rule (it coincides with the
spec's ordered rule table), and in particular an input matching rule 1
resolves to (e-commerce, high) even when it also matches rule 2. -/
theorem c3_categorize_first_match :
    (∀ input, categorizeProject input = specCategorizeRules input) ∧
    (∀ input, rule1Matches input = true → rule2Matches input = true →
      categorizeProject input = { type := "e-commerce", complexity := "high" }) := by
  constructor
  · intro input
    rfl
  · intro input h1 _
    have h1' := h1
    unfold rule1Matches at h1'
    unfold categorizeProject
    simp only [h1']
    simp

/-- Witness for C3 at a concrete input matching both rule 1 ("shopping")
and rule 2 ("microservices"). -/
theorem c3_witness :
    rule1Matches "Shopping microservices platform" = true ∧
    rule2Matches "Shopping microservices platform" = true ∧
    categorizeProject "Shopping microservices platform" =
      { type := "e-commerce", complexity := "high" } :=
  ⟨by decide, by decide,
    c3_categorize_first_match.2 "Shopping microservices platform" (by decide) (by decide)⟩

/-- C4: the suggested-technology list of the structured spec is the base
list, then the conditional database/cache pair exactly when the category
complexity is high or enterprise, then the extracted technologies,
deduplicated keeping first occurrences. -/
theorem c4_suggested_technologies (input : String) :
    (generateStructuredSpec input).technologies.suggested =
      List.eraseDups (["React", "Node.js"] ++
        (if (categorizeProject input).complexity = "high" ∨
            (categorizeProject input).complexity = "enterprise"
          then ["PostgreSQL", "Redis"] else []) ++
        (extractEntities input).technologies) := by
  show suggestTechnologies (categorizeProject input) (extractEntities input) = _
  unfold suggestTechnologies jsSetDedup
  by_cases h1 : (categorizeProject input).complexity = "high" <;>
    by_cases h2 : (categorizeProject input).complexity = "enterprise" <;>
    simp [h1, h2]

/-- C5: the complexity stored in every generated file's metadata is computed
by the feature/requirement/constraint-count rule, and that value can differ
from the `ProjectCategory.complexity` of `categorizeProject` on the same
input. -/
theorem c5_metadata_complexity :
    (∀ (phase : String) (spec : StructuredSpec) (now : String) (f : SparcFile),
        generatePhase phase spec now = .ok f →
        f.metadata.complexity = specComplexityRule spec) ∧
    (∃ input : String,
        determineComplexity (generateStructuredSpec input) ≠
          (categorizeProject input).complexity) := by
  constructor
  · intro phase spec now f h
    unfold generatePhase generatePhaseWith at h
    by_cases hv : phase ∈ validPhases
    · rw [if_pos hv] at h
      cases hg : generatePhaseContent phase spec with
      | error e => rw [hg] at h; exact absurd h (by simp [Except.map])
      | ok content =>
        rw [hg] at h
        have h2 : f.metadata.complexity = determineComplexity spec := by
          have h3 := Except.ok.inj h
          rw [← h3]
        rw [h2]
        exact determineComplexity_eq_rule spec
    · rw [if_neg hv] at h
      exact absurd h (by simp)
  · exact ⟨"shopping spree online store", by decide⟩

/-! ### Claim C6: the sanitiser leaves no tag-like markup -/

theorem removeTags_nil : removeTags [] = [] := by simp [removeTags]

theorem removeTags_cons_some (cs rest : List Char) (h : dropAfterGt cs = some rest) :
    removeTags ('<' :: cs) = removeTags rest := by
  simp [removeTags]
  split
  · rename_i r heq
    rw [h] at heq
    cases heq
    rfl
  · rename_i heq
    rw [h] at heq
    cases heq

theorem removeTags_cons_none (cs : List Char) (h : dropAfterGt cs = none) :
    removeTags ('<' :: cs) = '<' :: cs := by
  simp [removeTags]
  split
  · rename_i r heq
    rw [h] at heq
    cases heq
  · rfl

theorem removeTags_cons_ne (c : Char) (cs : List Char) (h : ¬c = '<') :
    removeTags (c :: cs) = c :: removeTags cs := by
  simp only [removeTags, if_neg h]

theorem hasGt_false_of_dropAfterGt_none : ∀ l, dropAfterGt l = none → hasGt l = false := by
  intro l
  induction l with
  | nil => intro _; rfl
  | cons c cs ih =>
    intro h
    simp only [dropAfterGt] at h
    by_cases hc : c = '>'
    · simp [hc] at h
    · rw [if_neg hc] at h
      simp only [hasGt]
      rw [ih h]
      simp [hc]

theorem hasTagShape_false_of_no_gt : ∀ l, hasGt l = false → hasTagShape l = false := by
  intro l
  induction l with
  | nil => intro _; rfl
  | cons c cs ih =>
    intro h
    simp only [hasGt, Bool.or_eq_false_iff] at h
    simp only [hasTagShape, ih h.2, h.1, h.2]
    simp

/-- The output of the second regex pass contains no `<` with a later `>`. -/
theorem removeTags_clean : ∀ l, hasTagShape (removeTags l) = false := by
  intro l
  induction l using removeTags.induct with
  | case1 => rw [removeTags_nil]; rfl
  | case2 cs rest h ih => rw [removeTags_cons_some cs rest h]; exact ih
  | case3 cs h =>
    rw [removeTags_cons_none cs h]
    have hgt := hasGt_false_of_dropAfterGt_none cs h
    simp only [hasTagShape, hgt, hasTagShape_false_of_no_gt cs hgt]
    simp
  | case4 c cs hc ih =>
    rw [removeTags_cons_ne c cs hc]
    simp only [hasTagShape, ih]
    simp [hc]

theorem hasGt_mono {l₁ l₂ : List Char} (h : List.Sublist l₁ l₂) :
    hasGt l₁ = true → hasGt l₂ = true := by
  induction h with
  | slnil => intro h2; exact h2
  | cons a h ih =>
    intro h2
    simp only [hasGt, ih h2]
    simp
  | cons₂ a h ih =>
    intro h2
    simp only [hasGt] at h2 ⊢
    rcases Bool.or_eq_true_iff.mp h2 with h3 | h3
    · rw [h3]; simp
    · rw [ih h3]; simp

theorem hasTagShape_mono {l₁ l₂ : List Char} (h : List.Sublist l₁ l₂) :
    hasTagShape l₁ = true → hasTagShape l₂ = true := by
  induction h with
  | slnil => intro h2; exact h2
  | cons a h ih =>
    intro h2
    simp only [hasTagShape, ih h2]
    simp
  | cons₂ a h ih =>
    intro h2
    simp only [hasTagShape] at h2 ⊢
    rcases Bool.or_eq_true_iff.mp h2 with h3 | h3
    · rcases Bool.and_eq_true_iff.mp h3 with ⟨h4, h5⟩
      rw [h4, hasGt_mono h h5]
      simp
    · rw [ih h3]
      simp

theorem trimChars_sublist (l : List Char) : List.Sublist (trimChars l) l := by
  unfold trimChars
  have h1 : List.Sublist (l.dropWhile Char.isWhitespace) l :=
    List.dropWhile_sublist Char.isWhitespace
  have h2 : List.Sublist ((l.dropWhile Char.isWhitespace).reverse.dropWhile Char.isWhitespace)
      (l.dropWhile Char.isWhitespace).reverse :=
    List.dropWhile_sublist Char.isWhitespace
  have h3 := List.reverse_sublist.mpr h2
  rw [List.reverse_reverse] at h3
  exact h3.trans h1

/-- C6: `sanitizeInput` (script-tag removal pass, then bare-tag removal
pass, then trim) produces a string with no tag-like markup: no substring of
the shape `<[^>]*>` remains, i.e. no `<` is followed by a later `>`. -/
theorem c6_sanitize_no_markup (input : String) :
    hasTagShape (sanitizeInput input).data = false := by
  show hasTagShape (trimChars (removeTags (removeScripts input.data))) = false
  cases h2 : hasTagShape (trimChars (removeTags (removeScripts input.data))) with
  | false => rfl
  | true =>
    have h3 := hasTagShape_mono (trimChars_sublist (removeTags (removeScripts input.data))) h2
    rw [removeTags_clean] at h3
    exact Bool.noConfusion h3

/-! ### Claims C7, C8: validation -/

/-- C7 as stated is false: a whitespace-only string longer than 10000
characters takes the empty-input short-circuit, so the result is
`{isValid: false, errors: ["Input is required"]}` with no length error and
no sanitizedInput. -/
def longWhitespaceInput : String := ⟨List.replicate 10001 ' '⟩

/-- Counterexample to C7 as stated: a 10001-character whitespace-only
input exceeds the maximum length, yet `validateInput` reports only
"Input is required" and leaves `sanitizedInput` unset. -/
theorem c7_counterexample :
    longWhitespaceInput.length > 10000 ∧
    "Input exceeds maximum length of 10000 characters" ∉
      (validateInput longWhitespaceInput).errors ∧
    (validateInput longWhitespaceInput).sanitizedInput = none := by
  have hdata : longWhitespaceInput.data = List.replicate 10001 ' ' := rfl
  have heval : validateInput longWhitespaceInput =
      { isValid := false, errors := ["Input is required"], sanitizedInput := none } := by
    have htrim : (jsTrim longWhitespaceInput).data = [] := by
      rw [jsTrim_data, hdata]
      exact trim_replicate_ws 10001 ' ' (by decide)
    unfold validateInput
    rw [if_pos (by rw [htrim]; rfl)]
  refine ⟨?_, ?_, ?_⟩
  · rw [str_length_data, hdata, List.length_replicate]
    omega
  · rw [heval]
    decide
  · rw [heval]

/-- C7 amended: for every input longer than 10000 characters that is not
whitespace-only (so the empty-input short-circuit is not taken),
`validateInput` includes the length-exceeded error and still populates
`sanitizedInput`. -/
theorem c7_amended_maxlength (input : String) (hlen : input.length > 10000)
    (hnw : (jsTrim input).data ≠ []) :
    "Input exceeds maximum length of 10000 characters" ∈ (validateInput input).errors ∧
    (validateInput input).sanitizedInput = some (sanitizeInput input) := by
  have hne : (jsTrim input).data.isEmpty = false := by
    cases hh : (jsTrim input).data with
    | nil => exact absurd hh hnw
    | cons a as => rfl
  unfold validateInput
  rw [if_neg (by simp [hne])]
  constructor
  · have h1 : ¬input.length < MIN_LENGTH := by unfold MIN_LENGTH; omega
    have h2 : input.length > MAX_LENGTH := by unfold MAX_LENGTH; omega
    simp only [if_neg h1, if_pos h2]
    simp
  · rfl

def longAInput : String := ⟨List.replicate 10001 'a'⟩

/-- Witness for the amended C7 at a concrete 10001-character input. -/
theorem c7_witness :
    longAInput.length > 10000 ∧ (jsTrim longAInput).data ≠ [] ∧
    ("Input exceeds maximum length of 10000 characters" ∈ (validateInput longAInput).errors ∧
      (validateInput longAInput).sanitizedInput = some (sanitizeInput longAInput)) := by
  have hdata : longAInput.data = List.replicate 10001 'a' := rfl
  have hlen : longAInput.length > 10000 := by
    rw [str_length_data, hdata, List.length_replicate]
    omega
  have htrim : (jsTrim longAInput).data = List.replicate 10001 'a' := by
    rw [jsTrim_data, hdata]
    rw [show (10001 : Nat) = 10000 + 1 from by norm_num]
    exact trim_replicate_nonws 10000 'a' (by decide)
  have hnw : (jsTrim longAInput).data ≠ [] := by
    rw [htrim]
    intro hh
    have h2 := congrArg List.length hh
    rw [List.length_replicate, List.length_nil] at h2
    omega
  exact ⟨hlen, hnw, c7_amended_maxlength longAInput hlen hnw⟩

/-- C8: whenever the empty-input short-circuit is not taken, the encoding
error is reported exactly when the input contains the Unicode replacement
character or fails the printable-range regex. -/
theorem c8_encoding_error (input : String) (hnw : (jsTrim input).data ≠ []) :
    "Invalid character encoding detected" ∈ (validateInput input).errors ↔
      (strIncludes input "�" = true ∨ matchesEncodingRegex input = false) := by
  have hne : (jsTrim input).data.isEmpty = false := by
    cases hh : (jsTrim input).data with
    | nil => exact absurd hh hnw
    | cons a as => rfl
  unfold validateInput
  rw [if_neg (by simp [hne])]
  by_cases h3 : (strIncludes input "�" || !matchesEncodingRegex input) = true
  · have hrhs : strIncludes input "�" = true ∨ matchesEncodingRegex input = false := by
      have h4 := h3
      rw [Bool.or_eq_true_iff, Bool.not_eq_true'] at h4
      exact h4
    refine iff_of_true ?_ hrhs
    by_cases h1 : input.length < MIN_LENGTH <;>
      by_cases h2 : input.length > MAX_LENGTH <;>
      simp [h1, h2, h3]
  · have hrhs : ¬(strIncludes input "�" = true ∨ matchesEncodingRegex input = false) := by
      intro hc
      apply h3
      rw [Bool.or_eq_true_iff, Bool.not_eq_true']
      exact hc
    refine iff_of_false ?_ hrhs
    intro hmem
    by_cases h1 : input.length < MIN_LENGTH <;>
      by_cases h2 : input.length > MAX_LENGTH <;>
      simp [h1, h2, h3] at hmem

/-- Witness for C8 at a concrete clean input (no error reported) whose
trim is non-empty. -/
theorem c8_witness :
    (jsTrim "hello world").data ≠ [] ∧
    ("Invalid character encoding detected" ∈ (validateInput "hello world").errors ↔
      (strIncludes "hello world" "�" = true ∨ matchesEncodingRegex "hello world" = false)) :=
  ⟨by decide, c8_encoding_error "hello world" (by decide)⟩

/-- Witness for C5: the first conjunct applied at a concrete phase, spec
and timestamp. -/
theorem c5_witness :
    ∃ f, generatePhase "specification"
        { projectName := "Demo", description := "d", features := ["a", "b", "c"],
          technologies := { suggested := ["React"], alternatives := [] },
          requirements := [], constraints := [], acceptanceCriteria := [],
          estimatedTimeline := { phases := [], totalWeeks := 2 },
          requestMetadata := none } "2024-01-01T00:00:00.000Z" = .ok f ∧
      f.metadata.complexity = specComplexityRule
        { projectName := "Demo", description := "d", features := ["a", "b", "c"],
          technologies := { suggested := ["React"], alternatives := [] },
          requirements := [], constraints := [], acceptanceCriteria := [],
          estimatedTimeline := { phases := [], totalWeeks := 2 },
          requestMetadata := none } :=
  ⟨_, rfl, c5_metadata_complexity.1 "specification" _ "2024-01-01T00:00:00.000Z" _ rfl⟩

/-! ### Evaluation of the aggregate generators on symbolic specs -/

/-- The five files `generateAllPhases` produces, in phase order. -/
def sparcFilesOf (spec : StructuredSpec) (now : String) : List SparcFile :=
  [{ phase := "specification", content := generateSpecificationContent 1 spec,
     metadata := { generatedAt := now, projectName := spec.projectName,
                   complexity := determineComplexity spec, phase := "specification",
                   technologies := spec.technologies.suggested } },
   { phase := "pseudocode", content := generatePseudocodeContent 2 spec,
     metadata := { generatedAt := now, projectName := spec.projectName,
                   complexity := determineComplexity spec, phase := "pseudocode",
                   technologies := spec.technologies.suggested } },
   { phase := "architecture", content := generateArchitectureContent 3 spec,
     metadata := { generatedAt := now, projectName := spec.projectName,
                   complexity := determineComplexity spec, phase := "architecture",
                   technologies := spec.technologies.suggested } },
   { phase := "refinement", content := generateRefinementContent 4 spec,
     metadata := { generatedAt := now, projectName := spec.projectName,
                   complexity := determineComplexity spec, phase := "refinement",
                   technologies := spec.technologies.suggested } },
   { phase := "completion", content := generateCompletionContent 5 spec,
     metadata := { generatedAt := now, projectName := spec.projectName,
                   complexity := determineComplexity spec, phase := "completion",
                   technologies := spec.technologies.suggested } }]

theorem generateAllPhases_eval (spec : StructuredSpec) (now : String) :
    generateAllPhases spec now = .ok (sparcFilesOf spec now) := rfl

/-! Non-emptiness of each phase template: each begins with `# Phase `. -/

theorem specificationContent_ne_empty (n : Nat) (spec : StructuredSpec) :
    generateSpecificationContent n spec ≠ "" := by
  have h : generateSpecificationContent n spec =
      "# Phase " ++ (toString n ++ (": Specification - " ++
        (spec.projectName ++ specificationTail spec))) := by
    simp only [generateSpecificationContent, String.append_assoc]
  rw [h]
  exact str_ne_empty_left _ _ (by decide)

theorem pseudocodeContent_ne_empty (n : Nat) (spec : StructuredSpec) :
    generatePseudocodeContent n spec ≠ "" := by
  have h : generatePseudocodeContent n spec =
      "# Phase " ++ (toString n ++ (": Pseudocode - " ++
        (spec.projectName ++ pseudocodeTail spec))) := by
    simp only [generatePseudocodeContent, String.append_assoc]
  rw [h]
  exact str_ne_empty_left _ _ (by decide)

theorem architectureContent_ne_empty (n : Nat) (spec : StructuredSpec) :
    generateArchitectureContent n spec ≠ "" := by
  have h : generateArchitectureContent n spec =
      "# Phase " ++ (toString n ++ (": Architecture - " ++
        (spec.projectName ++ architectureTail spec))) := by
    simp only [generateArchitectureContent, String.append_assoc]
  rw [h]
  exact str_ne_empty_left _ _ (by decide)

theorem refinementContent_ne_empty (n : Nat) (spec : StructuredSpec) :
    generateRefinementContent n spec ≠ "" := by
  have h : generateRefinementContent n spec =
      "# Phase " ++ (toString n ++ (": Refinement - " ++
        (spec.projectName ++ refinementTail spec))) := by
    simp only [generateRefinementContent, String.append_assoc]
  rw [h]
  exact str_ne_empty_left _ _ (by decide)

theorem completionContent_ne_empty (n : Nat) (spec : StructuredSpec) :
    generateCompletionContent n spec ≠ "" := by
  have h : generateCompletionContent n spec =
      "# Phase " ++ (toString n ++ (": Completion - " ++
        (spec.projectName ++ completionTail spec))) := by
    simp only [generateCompletionContent, String.append_assoc]
  rw [h]
  exact str_ne_empty_left _ _ (by decide)

/-- If some valid phase's content generation fails, the phase loop fails. -/
theorem generatePhasesList_error (gen : String → StructuredSpec → Except String String)
    (spec : StructuredSpec) (now : String) :
    ∀ l : List String, (∃ p ∈ l, p ∈ validPhases ∧ ∃ e, gen p spec = .error e) →
    ∃ e', generatePhasesList gen spec now l = .error e' := by
  intro l
  induction l with
  | nil =>
    rintro ⟨p, hp, _⟩
    exact absurd hp (List.not_mem_nil p)
  | cons q qs ih =>
    rintro ⟨p, hp, hv, e, he⟩
    cases hq : generatePhaseWith gen q spec now with
    | error e2 =>
      refine ⟨e2, ?_⟩
      rw [generatePhasesList, hq]
    | ok f =>
      rcases List.mem_cons.mp hp with heq | hp'
      · exfalso
        subst heq
        unfold generatePhaseWith at hq
        rw [if_pos hv, he] at hq
        simp [Except.map] at hq
      · obtain ⟨e', he'⟩ := ih ⟨p, hp', hv, e, he⟩
        refine ⟨e', ?_⟩
        rw [generatePhasesList, hq, he']

/-! ### Claims C1, C2 -/

/-- C1: for every structured spec, `generateAllPhases` returns exactly the
5 files in the fixed phase order, each with non-empty content and fully
populated metadata; and whenever the content generation throws for some
phase, the aggregate operation fails with the single error
"Failed to generate SPARC documentation" and returns no list. -/
theorem c1_generateAllPhases (spec : StructuredSpec) (now : String) :
    (∃ fs, generateAllPhases spec now = .ok fs ∧
      fs.map (fun f => f.phase) = validPhases ∧ fs.length = 5 ∧
      ∀ f ∈ fs, f.content ≠ "" ∧
        f.metadata = { generatedAt := now, projectName := spec.projectName,
                       complexity := determineComplexity spec, phase := f.phase,
                       technologies := spec.technologies.suggested }) ∧
    (∀ gen, (∃ p ∈ validPhases, ∃ e, gen p spec = .error e) →
      generateAllPhasesWith gen spec now = .error "Failed to generate SPARC documentation") := by
  constructor
  · refine ⟨sparcFilesOf spec now, generateAllPhases_eval spec now, rfl, rfl, ?_⟩
    intro f hf
    simp only [sparcFilesOf, List.mem_cons, List.not_mem_nil, or_false] at hf
    rcases hf with rfl | rfl | rfl | rfl | rfl
    · exact ⟨specificationContent_ne_empty 1 spec, rfl⟩
    · exact ⟨pseudocodeContent_ne_empty 2 spec, rfl⟩
    · exact ⟨architectureContent_ne_empty 3 spec, rfl⟩
    · exact ⟨refinementContent_ne_empty 4 spec, rfl⟩
    · exact ⟨completionContent_ne_empty 5 spec, rfl⟩
  · rintro gen ⟨p, hp, e, he⟩
    obtain ⟨e', he'⟩ := generatePhasesList_error gen spec now validPhases ⟨p, hp, hp, e, he⟩
    unfold generateAllPhasesWith
    rw [he']

/-- Witness for C1: the success conjunct at a concrete spec, and the
failure conjunct at a content generator that always throws. -/
theorem c1_witness :
    (∃ fs, generateAllPhases
        { projectName := "Demo", description := "d", features := ["a"],
          technologies := { suggested := ["React"], alternatives := [] },
          requirements := [], constraints := [], acceptanceCriteria := [],
          estimatedTimeline := { phases := [], totalWeeks := 2 },
          requestMetadata := none } "t0" = .ok fs ∧
      fs.map (fun f => f.phase) = validPhases) ∧
    generateAllPhasesWith (fun _ _ => .error "boom")
        { projectName := "Demo", description := "d", features := ["a"],
          technologies := { suggested := ["React"], alternatives := [] },
          requirements := [], constraints := [], acceptanceCriteria := [],
          estimatedTimeline := { phases := [], totalWeeks := 2 },
          requestMetadata := none } "t0" =
      .error "Failed to generate SPARC documentation" := by
  constructor
  · obtain ⟨fs, h1, h2, _, _⟩ := (c1_generateAllPhases _ "t0").1
    exact ⟨fs, h1, h2⟩
  · exact (c1_generateAllPhases _ "t0").2 (fun _ _ => .error "boom")
      ⟨"specification", by decide, "boom", rfl⟩

/-- C2: for each of the five valid phase names, `generatePhase` returns a
file whose content begins with the literal heading
`# Phase N: Title - projectName` (N the 1-based position in the fixed
order); for every other phase-name string it fails with
"Invalid phase name". -/
theorem c2_phase_headings (spec : StructuredSpec) (now : String) :
    (∀ phase, phase ∉ validPhases →
      generatePhase phase spec now = .error "Invalid phase name") ∧
    (∃ f r, generatePhase "specification" spec now = .ok f ∧
      f.content = "# Phase 1: Specification - " ++ (spec.projectName ++ r)) ∧
    (∃ f r, generatePhase "pseudocode" spec now = .ok f ∧
      f.content = "# Phase 2: Pseudocode - " ++ (spec.projectName ++ r)) ∧
    (∃ f r, generatePhase "architecture" spec now = .ok f ∧
      f.content = "# Phase 3: Architecture - " ++ (spec.projectName ++ r)) ∧
    (∃ f r, generatePhase "refinement" spec now = .ok f ∧
      f.content = "# Phase 4: Refinement - " ++ (spec.projectName ++ r)) ∧
    (∃ f r, generatePhase "completion" spec now = .ok f ∧
      f.content = "# Phase 5: Completion - " ++ (spec.projectName ++ r)) := by
  refine ⟨?_, ?_, ?_, ?_, ?_, ?_⟩
  · intro phase h
    unfold generatePhase generatePhaseWith
    rw [if_neg h]
  · refine ⟨_, specificationTail spec, rfl, ?_⟩
    show generateSpecificationContent 1 spec = _
    have hs : generateSpecificationContent 1 spec =
        "# Phase " ++ (toString (1 : Nat) ++ (": Specification - " ++
          (spec.projectName ++ specificationTail spec))) := by
      simp only [generateSpecificationContent, String.append_assoc]
    rw [hs, ← String.append_assoc, ← String.append_assoc,
      show ("# Phase " ++ toString (1 : Nat) ++ ": Specification - " : String) =
        "# Phase 1: Specification - " from by decide]
  · refine ⟨_, pseudocodeTail spec, rfl, ?_⟩
    show generatePseudocodeContent 2 spec = _
    have hs : generatePseudocodeContent 2 spec =
        "# Phase " ++ (toString (2 : Nat) ++ (": Pseudocode - " ++
          (spec.projectName ++ pseudocodeTail spec))) := by
      simp only [generatePseudocodeContent, String.append_assoc]
    rw [hs, ← String.append_assoc, ← String.append_assoc,
      show ("# Phase " ++ toString (2 : Nat) ++ ": Pseudocode - " : String) =
        "# Phase 2: Pseudocode - " from by decide]
  · refine ⟨_, architectureTail spec, rfl, ?_⟩
    show generateArchitectureContent 3 spec = _
    have hs : generateArchitectureContent 3 spec =
        "# Phase " ++ (toString (3 : Nat) ++ (": Architecture - " ++
          (spec.projectName ++ architectureTail spec))) := by
      simp only [generateArchitectureContent, String.append_assoc]
    rw [hs, ← String.append_assoc, ← String.append_assoc,
      show ("# Phase " ++ toString (3 : Nat) ++ ": Architecture - " : String) =
        "# Phase 3: Architecture - " from by decide]
  · refine ⟨_, refinementTail spec, rfl, ?_⟩
    show generateRefinementContent 4 spec = _
    have hs : generateRefinementContent 4 spec =
        "# Phase " ++ (toString (4 : Nat) ++ (": Refinement - " ++
          (spec.projectName ++ refinementTail spec))) := by
      simp only [generateRefinementContent, String.append_assoc]
    rw [hs, ← String.append_assoc, ← String.append_assoc,
      show ("# Phase " ++ toString (4 : Nat) ++ ": Refinement - " : String) =
        "# Phase 4: Refinement - " from by decide]
  · refine ⟨_, completionTail spec, rfl, ?_⟩
    show generateCompletionContent 5 spec = _
    have hs : generateCompletionContent 5 spec =
        "# Phase " ++ (toString (5 : Nat) ++ (": Completion - " ++
          (spec.projectName ++ completionTail spec))) := by
      simp only [generateCompletionContent, String.append_assoc]
    rw [hs, ← String.append_assoc, ← String.append_assoc,
      show ("# Phase " ++ toString (5 : Nat) ++ ": Completion - " : String) =
        "# Phase 5: Completion - " from by decide]

/-- Witness for C2: an invalid phase name at a concrete spec. -/
theorem c2_witness :
    "deployment" ∉ validPhases ∧
    generatePhase "deployment"
        { projectName := "Demo", description := "d", features := [],
          technologies := { suggested := [], alternatives := [] },
          requirements := [], constraints := [], acceptanceCriteria := [],
          estimatedTimeline := { phases := [], totalWeeks := 2 },
          requestMetadata := none } "t0" = .error "Invalid phase name" :=
  ⟨by decide, (c2_phase_headings _ "t0").1 "deployment" (by decide)⟩

/-! ### Claim C9: technologies round-trip into the architecture document -/

/-- Substring occurrence: `needle` appears verbatim inside `hay`. -/
def strInfix (needle hay : String) : Prop := ∃ p s, hay = p ++ needle ++ s

theorem strInfix_appL {t a : String} (h : strInfix t a) (b : String) : strInfix t (a ++ b) := by
  obtain ⟨p, s, rfl⟩ := h
  exact ⟨p, s ++ b, by simp [String.append_assoc]⟩

theorem strInfix_appR {t b : String} (a : String) (h : strInfix t b) : strInfix t (a ++ b) := by
  obtain ⟨p, s, rfl⟩ := h
  exact ⟨a ++ p, s, by simp [String.append_assoc]⟩

/-- Every member of the technology list occurs verbatim in the rendered
component list. -/
theorem strInfix_componentList (t : String) : ∀ l : List String, t ∈ l →
    strInfix t (joinSep "\n" (l.map (fun tech =>
      "- " ++ tech ++ ": " ++ getTechnologyDescription tech))) := by
  intro l
  induction l with
  | nil => intro h; exact absurd h (List.not_mem_nil t)
  | cons a as ih =>
    intro h
    rcases List.mem_cons.mp h with rfl | h'
    · cases as with
      | nil =>
        refine ⟨"- ", ": " ++ getTechnologyDescription t, ?_⟩
        simp [joinSep, String.append_assoc]
      | cons b bs =>
        have hj : joinSep "\n" ((t :: b :: bs).map (fun tech =>
            "- " ++ tech ++ ": " ++ getTechnologyDescription tech)) =
            ("- " ++ t ++ ": " ++ getTechnologyDescription t) ++ "\n" ++
            joinSep "\n" ((b :: bs).map (fun tech =>
              "- " ++ tech ++ ": " ++ getTechnologyDescription tech)) := rfl
        rw [hj]
        refine strInfix_appL (strInfix_appL ⟨"- ", ": " ++ getTechnologyDescription t, ?_⟩ _) _
        simp [String.append_assoc]
    · cases as with
      | nil => exact absurd h' (List.not_mem_nil t)
      | cons b bs =>
        have hj : joinSep "\n" ((a :: b :: bs).map (fun tech =>
            "- " ++ tech ++ ": " ++ getTechnologyDescription tech)) =
            ("- " ++ a ++ ": " ++ getTechnologyDescription a) ++ "\n" ++
            joinSep "\n" ((b :: bs).map (fun tech =>
              "- " ++ tech ++ ": " ++ getTechnologyDescription tech)) := rfl
        rw [hj]
        exact strInfix_appR _ (ih h')

/-- C9: every technology of `spec.technologies.suggested` appears verbatim
both in the component list and in the content of the architecture-phase
document generated from the spec. -/
theorem c9_architecture_roundtrip (spec : StructuredSpec) (now : String) :
    ∃ f, generatePhase "architecture" spec now = .ok f ∧
      ∀ t ∈ spec.technologies.suggested,
        strInfix t (componentStructure spec) ∧ strInfix t f.content := by
  refine ⟨{ phase := "architecture", content := generateArchitectureContent 3 spec,
            metadata := { generatedAt := now, projectName := spec.projectName,
                          complexity := determineComplexity spec, phase := "architecture",
                          technologies := spec.technologies.suggested } }, rfl, ?_⟩
  intro t ht
  have hcs : strInfix t (componentStructure spec) := by
    unfold componentStructure
    exact strInfix_componentList t _ ht
  refine ⟨hcs, ?_⟩
  show strInfix t (generateArchitectureContent 3 spec)
  unfold generateArchitectureContent
  apply strInfix_appR
  simp only [architectureTail]
  apply strInfix_appL
  exact strInfix_appR _ hcs

/-- Witness for C9 at a concrete spec and technology. -/
theorem c9_witness :
    ∃ f, generatePhase "architecture"
        { projectName := "Demo", description := "d", features := [],
          technologies := { suggested := ["React", "Node.js"], alternatives := [] },
          requirements := [], constraints := [], acceptanceCriteria := [],
          estimatedTimeline := { phases := [], totalWeeks := 2 },
          requestMetadata := none } "t0" = .ok f ∧
      strInfix "React" f.content := by
  obtain ⟨f, hf, hall⟩ := c9_architecture_roundtrip
    { projectName := "Demo", description := "d", features := [],
      technologies := { suggested := ["React", "Node.js"], alternatives := [] },
      requirements := [], constraints := [], acceptanceCriteria := [],
      estimatedTimeline := { phases := [], totalWeeks := 2 },
      requestMetadata := none } "t0"
  exact ⟨f, hf, (hall "React" (by decide)).2⟩

/-! ### Claim C10: tests and docs cannot be suppressed -/

/-- The effective framework chosen by `generate`
(`spec.requestMetadata?.framework || 'react'`). -/
def frameworkOf (spec : StructuredSpec) : String :=
  match spec.requestMetadata with
  | none => "react"
  | some m => if m.framework = "" then "react" else m.framework

/-- The file list `generate` produces: the five SPARC documents, the
framework scaffold, and — unconditionally, because `|| true` forces both
flags — the test files and the documentation files. -/
def generatedFilesOf (spec : StructuredSpec) (now : String) : List GeneratedFile :=
  (sparcFilesOf spec now).map (fun f =>
    { name := f.phase ++ ".md", content := f.content, type := "documentation" }) ++
  generateFrameworkFiles (frameworkOf spec) spec ++
  generateTestFiles (frameworkOf spec) spec ++
  generateDocumentationFiles spec

theorem generate_eval (spec : StructuredSpec) (now : String) :
    generate spec now = .ok
      { files := generatedFilesOf spec now,
        specification := generateSpecificationContent 1 spec,
        architecture := generateArchitectureContent 3 spec } := by
  unfold generate
  rw [generateAllPhases_eval]
  simp only [Bool.or_true, if_true]
  simp [generatedFilesOf, frameworkOf, sparcFilesOf]

/-- C10: `generate` always emits the test scaffold (tests/setup.ts plus one
test file per feature) and the documentation files (README.md and
CONTRIBUTING.md), for every spec — in particular even when
`requestMetadata.includeTests` or `requestMetadata.includeDocs` is
explicitly false, since the `|| true` defaulting makes both flags true. -/
theorem c10_tests_docs_always (spec : StructuredSpec) (now : String) :
    ∃ out, generate spec now = .ok out ∧
      (∃ f ∈ out.files, f.name = "tests/setup.ts" ∧ f.type = "test") ∧
      (∀ feature ∈ spec.features, ∃ f ∈ out.files,
        f.name = "tests/" ++ hyphenateWs (jsToLower feature) ++ ".test.ts" ∧ f.type = "test") ∧
      (∃ f ∈ out.files, f.name = "README.md" ∧ f.type = "documentation") ∧
      (∃ f ∈ out.files, f.name = "CONTRIBUTING.md" ∧ f.type = "documentation") := by
  refine ⟨_, generate_eval spec now, ?_, ?_, ?_, ?_⟩
  · refine ⟨{ name := "tests/setup.ts", content := generateTestSetup (frameworkOf spec),
              type := "test" }, ?_, rfl, rfl⟩
    show _ ∈ generatedFilesOf spec now
    unfold generatedFilesOf
    exact List.mem_append_left _ (List.mem_append_right _ (List.mem_cons_self _ _))
  · intro feature hfeat
    refine ⟨{ name := "tests/" ++ hyphenateWs (jsToLower feature) ++ ".test.ts",
              content := generateFeatureTest feature, type := "test" }, ?_, rfl, rfl⟩
    show _ ∈ generatedFilesOf spec now
    unfold generatedFilesOf
    refine List.mem_append_left _ (List.mem_append_right _ ?_)
    exact List.mem_cons_of_mem _ (List.mem_map_of_mem _ hfeat)
  · refine ⟨{ name := "README.md", content := generateReadme spec,
              type := "documentation" }, ?_, rfl, rfl⟩
    show _ ∈ generatedFilesOf spec now
    unfold generatedFilesOf
    exact List.mem_append_right _ (List.mem_cons_self _ _)
  · refine ⟨{ name := "CONTRIBUTING.md", content := generateContributing,
              type := "documentation" }, ?_, rfl, rfl⟩
    show _ ∈ generatedFilesOf spec now
    unfold generatedFilesOf
    exact List.mem_append_right _ (List.mem_cons_of_mem _ (List.mem_cons_self _ _))

/-- Witness for C10 at a concrete spec whose request metadata explicitly
sets `includeTests := false` and `includeDocs := false`. -/
theorem c10_witness :
    ∃ out, generate
        { projectName := "Demo", description := "d", features := ["blog application"],
          technologies := { suggested := ["React"], alternatives := [] },
          requirements := [], constraints := [], acceptanceCriteria := [],
          estimatedTimeline := { phases := [], totalWeeks := 2 },
          requestMetadata := some
            { complexity := "simple", framework := "react", includeTests := false,
              includeDocs := false, aiProvider := "openai" } } "t0" = .ok out ∧
      (∃ f ∈ out.files, f.name = "tests/setup.ts" ∧ f.type = "test") ∧
      (∃ f ∈ out.files,
        f.name = "tests/" ++ hyphenateWs (jsToLower "blog application") ++ ".test.ts" ∧
        f.type = "test") ∧
      (∃ f ∈ out.files, f.name = "README.md" ∧ f.type = "documentation") ∧
      (∃ f ∈ out.files, f.name = "CONTRIBUTING.md" ∧ f.type = "documentation") := by
  obtain ⟨out, hout, hsetup, hfeat, hreadme, hcontrib⟩ := c10_tests_docs_always
    { projectName := "Demo", description := "d", features := ["blog application"],
      technologies := { suggested := ["React"], alternatives := [] },
      requirements := [], constraints := [], acceptanceCriteria := [],
      estimatedTimeline := { phases := [], totalWeeks := 2 },
      requestMetadata := some
        { complexity := "simple", framework := "react", includeTests := false,
          includeDocs := false, aiProvider := "openai" } } "t0"
  exact ⟨out, hout, hsetup, hfeat "blog application" (by decide), hreadme, hcontrib⟩

end AIFS
